import Mathlib

/-!
Verification development for the cs_tools resilient API client subsystem.

This file gives a shallow embedding of the transport / workflow code of the
repository (src/cs_tools/utils.py, src/cs_tools/api/client.py,
src/cs_tools/api/workflows/metadata.py) and proves or refutes the testable
properties of its specification.

Modelling conventions:
- Coroutines are modelled by the outcome they produce when run to completion:
  a value of type `Except ε α` (exception raised, or value returned).  The
  scheduling model of the code is single-threaded cooperative concurrency, so
  a deterministic run-to-completion semantics is faithful for the properties
  treated here.
- Python dicts whose values are only iterated are modelled as association
  lists; Python sets used only for membership are modelled as lists queried
  with `List.contains`.
- Epoch-millisecond timestamps are `Int`; the UTC instant produced by
  `datetime.fromtimestamp(ms / 1000, tz=timezone.utc)` is modelled as the
  rational number of seconds since the epoch.
-/

namespace CsTools

/-- Transport-level errors of the `httpx.HTTPError` hierarchy, as far as the
workflows distinguish them: connection/transport failures raised while
sending, and `HTTPStatusError` raised by `Response.raise_for_status()`. -/
inductive HTTPError where
  | connectError (msg : String)
  | statusError (status : Nat) (msg : String)
deriving DecidableEq, Repr

/-- Result of one `metadata_search` (or similar) call: the HTTP status code
and the parsed JSON body `r.json()`, a list of records of some shape `ρ`. -/
structure SearchResponse (ρ : Type) where
  status : Nat
  records : List ρ
deriving DecidableEq, Repr

/-- Semantics of running a `BoundedTaskGroup` (src/cs_tools/utils.py, lines
62-77) over a list of named units of work, each modelled by its
run-to-completion outcome.  `BoundedTaskGroup` subclasses `asyncio.TaskGroup`
adding only a counting semaphore for backpressure; the semaphore bounds how
many units are in flight but does not change any unit's outcome in the
deterministic model.  Per the documented semantics of `asyncio.TaskGroup`:
when any task in the group raises, the remaining tasks are cancelled and the
enclosing `async with` block raises an `ExceptionGroup` collecting the raised
exceptions; only when no task raises does the block complete normally with
every task's result available via `task.result()`. -/
def taskGroupRun {κ ε α : Type} (units : List (κ × Except ε α)) :
    Except (List ε) (List (κ × Except ε α)) :=
  let raised := units.filterMap fun u =>
    match u.2 with
    | .error e => some e
    | .ok _ => none
  if raised.isEmpty then .ok units else .error raised

/-- The result-classification loop of `fetch` (metadata.py lines 78-89):
for each task, take its result, `raise_for_status()`, parse, and extend the
accumulated results; any `httpx.HTTPError` is logged and the task skipped. -/
def fetchClassify {κ ρ : Type} (acc : List ρ) :
    List (κ × Except HTTPError (SearchResponse ρ)) → List ρ
  | [] => acc
  | (_, .error _) :: us => fetchClassify acc us
  | (_, .ok r) :: us =>
      if 400 ≤ r.status then fetchClassify acc us
      else fetchClassify (acc ++ r.records) us

/-- The `fetch` workflow (metadata.py lines 50-91), abstracted over the
already-built units of work: each unit is one `metadata_search` call keyed by
the guid used as the task name.  All units are submitted to a
`BoundedTaskGroup` before any result is inspected; the classification loop
runs only if the group's `async with` block completed without raising. -/
def fetch {κ ρ : Type} (units : List (κ × Except HTTPError (SearchResponse ρ))) :
    Except (List HTTPError) (List ρ) :=
  match taskGroupRun units with
  | .error es => .error es
  | .ok outs => .ok (fetchClassify [] outs)

/-- A unit whose coroutine completes normally with response `r`. -/
def okUnit {κ ρ : Type} (u : κ × SearchResponse ρ) :
    κ × Except HTTPError (SearchResponse ρ) :=
  (u.1, .ok u.2)

/-- A Python iterable as passed to `fetch_all`: either re-iterable (a list or
tuple, which `list(...)` copies without consuming) or a one-shot iterator
(a generator, which a full pass leaves exhausted). -/
inductive PyIterable (α : Type) where
  | reiterable (xs : List α)
  | oneShot (xs : List α)
deriving DecidableEq, Repr

/-- Effect of Python's `list(iterable)`: the materialized list, together with
the state the iterable is left in afterwards. -/
def PyIterable.materialize {α : Type} : PyIterable α → List α × PyIterable α
  | .reiterable xs => (xs, .reiterable xs)
  | .oneShot xs => (xs, .oneShot [])

/-- The elements a subsequent `for` loop over the iterable will see. -/
def PyIterable.items {α : Type} : PyIterable α → List α
  | .reiterable xs => xs
  | .oneShot xs => xs

/-- The result-classification loop of `fetch_all` (metadata.py lines 36-45):
`task.result()` either yields the drained records of one object type, which
extend the results, or raises `httpx.HTTPError`, which is logged and the
type skipped. -/
def drainClassify {κ ρ : Type} (acc : List ρ) :
    List (κ × Except HTTPError (List ρ)) → List ρ
  | [] => acc
  | (_, .error _) :: us => drainClassify acc us
  | (_, .ok d) :: us => drainClassify (acc ++ d) us

/-- Observable trace of one `fetch_all` run. -/
structure FetchAllRun (ρ : Type) where
  /-- `max_concurrent=len(list(object_types))` passed to the task group. -/
  maxConcurrent : Nat
  /-- Number of units of work created by the submission loop; each unit
  issues at least one network call, so zero units means zero calls. -/
  unitsSubmitted : Nat
  /-- What the call produces: the combined record list, or the exceptions
  raised out of the `async with` block as an exception group. -/
  result : Except (List HTTPError) (List ρ)
deriving Repr

/-- The `fetch_all` workflow (metadata.py lines 21-47).  `drain` models
`paginator(http.metadata_search, record_size=..., ...)` for one object type:
the full pagination drain of that type, which either returns all records or
raises an `httpx.HTTPError`.  (`paginator` itself lives in
cs_tools/api/workflows/utils.py, not under src/; per the spec it repeatedly
invokes the call with increasing offset, accumulating records until a
last-batch signal, and errors of the underlying call propagate.)  The
concurrency cap is computed as `len(list(object_types))`, consuming the
iterable once; the submission loop then iterates over whatever the iterable
still yields. -/
def fetchAll {τ ρ : Type} (objectTypes : PyIterable τ)
    (drain : τ → Except HTTPError (List ρ)) : FetchAllRun ρ :=
  let counted := objectTypes.materialize
  let units := counted.2.items.map fun t => (t, drain t)
  { maxConcurrent := counted.1.length
    unitsSubmitted := units.length
    result :=
      match taskGroupRun units with
      | .error es => .error es
      | .ok outs => .ok (drainClassify [] outs) }

/-- One entry of a nested dependent bucket: the fields of a raw dependent
object that `dependents` (metadata.py lines 208-228) reads.  `authorName` is
read with `.get("authorName", "UNKNOWN")`, so it may be absent. -/
structure DependentEntry where
  id : String
  name : String
  author : String
  authorName : Option String
  tags : List String
  /-- Epoch milliseconds, field `modified`. -/
  modified : Int
deriving DecidableEq, Repr

/-- The `metadata_header` fields read by the top-level emission branch of
`dependents` (metadata.py lines 191-206). -/
structure MetadataHeader where
  author : String
  authorName : String
  tags : List String
  /-- Epoch milliseconds, field `modified`. -/
  modified : Int
deriving DecidableEq, Repr

/-- One record of a `metadata_search` response as consumed by `dependents`.
`dependent_objects` is a dict keyed by guid whose values are dicts from
dependent type to lists of dependent entries; only `.values()` of the outer
dict and `.items()` of the inner dicts are used, so both are association
lists here. -/
structure MetadataObject where
  metadata_id : String
  metadata_name : String
  metadata_type : String
  metadata_header : MetadataHeader
  dependent_objects : List (String × List (String × List DependentEntry))
deriving DecidableEq, Repr

/-- The UTC instant `datetime.fromtimestamp(ms / 1000, tz=timezone.utc)`,
as a rational number of seconds since the Unix epoch. -/
def utcFromMillis (ms : Int) : ℚ := (ms : ℚ) / 1000

/-- The Metadata Record dict built by `dependents` for each emission. -/
structure DependentRecord where
  guid : String
  name : String
  type : String
  author_guid : String
  author_name : String
  tags : List String
  /-- UTC instant, seconds since the epoch. -/
  last_modified : ℚ
deriving DecidableEq, Repr

/-- The record emitted for a metadata object's own row (metadata.py lines
192-204).  `lookup` stands for `types.lookup_api_type` (cs_tools/types.py,
not under src/), which normalizes a raw metadata type name to an API object
type tag; all properties proved here hold for every such normalization. -/
def topLevelRecord (lookup : String → String) (m : MetadataObject) : DependentRecord :=
  { guid := m.metadata_id
    name := m.metadata_name
    type := lookup m.metadata_type
    author_guid := m.metadata_header.author
    author_name := m.metadata_header.authorName
    tags := m.metadata_header.tags
    last_modified := utcFromMillis m.metadata_header.modified }

/-- The record emitted for one nested dependent (metadata.py lines 214-226). -/
def dependentRecord (lookup : String → String) (dependentType : String)
    (d : DependentEntry) : DependentRecord :=
  { guid := d.id
    name := d.name
    type := lookup dependentType
    author_guid := d.author
    author_name := d.authorName.getD "UNKNOWN"
    tags := d.tags
    last_modified := utcFromMillis d.modified }

/-- Emission state: the `all_dependents` list and the `seen` guid set
(insertion order retained; only membership is queried). -/
structure EmitState where
  all : List DependentRecord
  seen : List String
deriving DecidableEq, Repr

/-- Innermost loop of `dependents` (metadata.py lines 210-228): emit each
dependent of one type bucket unless its id was already seen. -/
def emitBucket (lookup : String → String) (dependentType : String)
    (st : EmitState) : List DependentEntry → EmitState
  | [] => st
  | d :: ds =>
      if st.seen.contains d.id then emitBucket lookup dependentType st ds
      else
        emitBucket lookup dependentType
          ⟨st.all ++ [dependentRecord lookup dependentType d], st.seen ++ [d.id]⟩ ds

/-- Middle loop: `for dependent_type, dependents in dependent_info.items()`. -/
def emitTypeBuckets (lookup : String → String) (st : EmitState) :
    List (String × List DependentEntry) → EmitState
  | [] => st
  | (ty, ds) :: rest => emitTypeBuckets lookup (emitBucket lookup ty st ds) rest

/-- Per-object body of the walk (metadata.py lines 190-228): optionally emit
the object's own row (only when `track_top_level_info` and unseen), then walk
`dependent_objects.values()`. -/
def emitObject (lookup : String → String) (trackTopLevelInfo : Bool)
    (st : EmitState) (m : MetadataObject) : EmitState :=
  let st1 :=
    if trackTopLevelInfo && !(st.seen.contains m.metadata_id) then
      (⟨st.all ++ [topLevelRecord lookup m], st.seen ++ [m.metadata_id]⟩ : EmitState)
    else st
  m.dependent_objects.foldl (fun s kv => emitTypeBuckets lookup s kv.2) st1

/-- Outer loop: `for metadata_object in d`. -/
def emitObjects (lookup : String → String) (trackTopLevelInfo : Bool)
    (st : EmitState) : List MetadataObject → EmitState
  | [] => st
  | m :: ms => emitObjects lookup trackTopLevelInfo (emitObject lookup trackTopLevelInfo st m) ms

/-- The `dependents` workflow (metadata.py lines 161-230) after its root
fetch succeeded (`raise_for_status` did not raise) and `root` is the first
record of the root search response.  `childTableGuids` is the list of
`logical_table["header"]["id"]` extracted from the root's
`metadata_detail.logicalTableList`; `childSearch g` is the parsed body
`r.json()` of the per-child `metadata_search` expansion call (gathered in
submission order and chained).  If the root's type is `CONNECTION`, one
expansion call is made per contained table and top-level rows are tracked;
otherwise the root's own search record is walked directly and top-level rows
are not tracked. -/
def dependents (lookup : String → String) (root : MetadataObject)
    (childTableGuids : List String)
    (childSearch : String → List MetadataObject) : List DependentRecord :=
  if root.metadata_type == "CONNECTION" then
    let d := (childTableGuids.map childSearch).flatten
    (emitObjects lookup true ⟨[], []⟩ d).all
  else
    (emitObjects lookup false ⟨[], []⟩ [root]).all

/-- Fields of the `info` member of one TML export payload entry that
`tml_export` (metadata.py lines 233-265) reads. -/
structure TMLInfo where
  id : String
  type : String
  /-- The nested `info.status.status_code` field. -/
  status_code : String
deriving DecidableEq, Repr

/-- One entry of the parsed TML export payload `r.json()`. -/
structure TMLEDoc where
  edoc : String
  info : TMLInfo
deriving DecidableEq, Repr

/-- The `metadata_tml_export` response as `tml_export` consumes it. -/
structure TMLExportResponse where
  status : Nat
  payload : List TMLEDoc
  /-- `r.text`, the raw body used for diagnostics. -/
  text : String
deriving DecidableEq, Repr

/-- What `tml_export` returns: a degraded result when the HTTP layer failed
or the payload was empty, a degraded result carrying the error info when the
payload's own status signalled an application-level error, or the full
parsed entry on success. -/
inductive TMLExportResult where
  | degradedTransport (info_id : String) (httpx_response : String)
  | degradedApp (info : TMLInfo)
  | success (d : TMLEDoc)
deriving DecidableEq, Repr

/-- A file written by `tml_export`: destination path and content. -/
structure FileWrite where
  path : String
  content : String
deriving DecidableEq, Repr

/-- The `tml_export` workflow (metadata.py lines 233-265) given the response
of the export call, returning its result together with the list of files it
writes.  `raise_for_status` raising `HTTPStatusError`, and `next(iter(...))`
raising `StopIteration` on an empty payload, are both caught and produce the
transport-degraded result; a payload whose `info.status.status_code` is
`ERROR` raises `ValueError(d["info"])`, caught to produce the app-degraded
result.  Both degraded paths return before the persistence block, so they
never write a file.  On success a file is written only when a directory was
requested, at `<type>/<id>.<type>.tml` under it. -/
def tml_export (guid : String) (directory : Option String)
    (r : TMLExportResponse) : TMLExportResult × List FileWrite :=
  if 400 ≤ r.status then (.degradedTransport guid r.text, [])
  else
    match r.payload with
    | [] => (.degradedTransport guid r.text, [])
    | d :: _ =>
      if d.info.status_code == "ERROR" then (.degradedApp d.info, [])
      else
        match directory with
        | none => (.success d, [])
        | some dir =>
            (.success d,
              [⟨dir ++ "/" ++ d.info.type ++ "/" ++ d.info.id ++ "." ++ d.info.type ++ ".tml",
                d.edoc⟩])

/-- Default request timeout of the client, seconds
(`CALLOSUM_DEFAULT_TIMEOUT_SECONDS = 60 * 5`, client.py line 19). -/
def CALLOSUM_DEFAULT_TIMEOUT_SECONDS : Nat := 60 * 5

/-- The URL path posted to by `RESTAPIClient.metadata_tml_import`
(client.py line 297). -/
def METADATA_TML_IMPORT_PATH : String := "api/rest/2.0/metadata/tml/import"

/-- An in-flight HTTP request as the retry classifier sees it. -/
structure HTTPRequest where
  method : String
  urlPath : String
deriving DecidableEq, Repr

/-- Whether the in-flight request is the bulk TML import operation. -/
def HTTPRequest.isTMLImport (req : HTTPRequest) : Bool :=
  req.urlPath == METADATA_TML_IMPORT_PATH

/-- Whether a transport error is a transient network/connection error. -/
def HTTPError.isTransient : HTTPError → Bool
  | .connectError _ => true
  | .statusError _ _ => false

/-- Modelled from the spec: `_retry.request_errors_unless_importing_tml`
(cs_tools/api/_retry.py, not under src/), the exception classifier wired
into the transport's retry policy (client.py line 48).  Per the spec, retry
triggers on transient network/connection errors EXCEPT when the in-flight
request is a bulk import operation, whose failures must surface
immediately. -/
def request_errors_unless_importing_tml (req : HTTPRequest) (e : HTTPError) : Bool :=
  e.isTransient && !req.isTMLImport

/-- A completed-attempt response as seen by the result classifier. -/
structure AttemptResponse where
  status : Nat
  /-- Whether the response carries the designated server-overload marker. -/
  overloaded : Bool
deriving DecidableEq, Repr

/-- Modelled from the spec: `_retry.if_server_is_under_pressure`
(cs_tools/api/_retry.py, not under src/), the result classifier wired into
the transport's retry policy (client.py line 49).  Per the spec it detects a
designated server-overload signal, distinct from generic 4xx/5xx. -/
def if_server_is_under_pressure (r : AttemptResponse) : Bool :=
  r.overloaded

/-- Outcome of one attempt: an exception raised, or a response received. -/
inductive Attempt where
  | raised (e : HTTPError)
  | responded (r : AttemptResponse)
deriving DecidableEq, Repr

/-- The combined retry condition of the transport's `tenacity.AsyncRetrying`
(client.py lines 47-50): `retry_if_exception(request_errors_unless_importing_tml)
| retry_if_result(if_server_is_under_pressure)`. -/
def shouldRetry (req : HTTPRequest) : Attempt → Bool
  | .raised e => request_errors_unless_importing_tml req e
  | .responded r => if_server_is_under_pressure r

/-- `stop_after_attempt(max_attempt_number=3)` (client.py line 52). -/
def MAX_ATTEMPT_NUMBER : Nat := 3

/-- `wait_exponential(exp_base=4)` (client.py line 51): the backoff slept
after completed attempt number `n` is `multiplier * exp_base ^ n` seconds
with the default multiplier 1 (capped at the default maximum, far above the
values reachable within 3 attempts). -/
def backoffAfterAttempt (n : Nat) : Nat := 4 ^ n

/-- What the retry loop delivers to the caller after it stops. -/
inductive RetryOutcome where
  /-- The final response, returned normally. -/
  | value (r : AttemptResponse)
  /-- An exception re-raised to the caller unchanged (`reraise=True`). -/
  | raised (e : HTTPError)
  /-- Attempts exhausted on a retryable result: with `reraise=True` tenacity
  raises `RetryError` when the last attempt did not itself raise. -/
  | retryExhausted (r : AttemptResponse)
deriving DecidableEq, Repr

/-- Observable trace of one pass through the transport's retry loop. -/
structure RetryRun where
  attemptsMade : Nat
  /-- Backoff delays slept between attempts, in order. -/
  delays : List Nat
  outcome : RetryOutcome
deriving DecidableEq, Repr

/-- One step of the `tenacity.AsyncRetrying` loop configured in client.py
lines 46-55.  `n` is the current attempt number (starting at 1),
`retriesLeft` how many further attempts `stop_after_attempt` still allows.
An attempt whose outcome the retry condition rejects stops the loop at once:
a raised exception propagates, a response is returned.  A retryable outcome
with retries left logs, sleeps the exponential backoff, and retries; with
none left, `reraise=True` re-raises the attempt's own exception unchanged,
or raises `RetryError` if the final attempt produced a (retryable)
response. -/
def retryStep (req : HTTPRequest) (attempt : Nat → Attempt) :
    Nat → Nat → List Nat → RetryRun
  | n, 0, delays =>
      { attemptsMade := n
        delays := delays
        outcome :=
          match attempt n with
          | .raised e => .raised e
          | .responded r =>
              if if_server_is_under_pressure r then .retryExhausted r else .value r }
  | n, retriesLeft + 1, delays =>
      let a := attempt n
      if shouldRetry req a then
        retryStep req attempt (n + 1) retriesLeft (delays ++ [backoffAfterAttempt n])
      else
        { attemptsMade := n
          delays := delays
          outcome :=
            match a with
            | .raised e => .raised e
            | .responded r => .value r }

/-- Run the transport's retry loop for one request, `attempt i` being the
outcome of the i-th attempt (1-based). -/
def retryRun (req : HTTPRequest) (attempt : Nat → Attempt) : RetryRun :=
  retryStep req attempt 1 (MAX_ATTEMPT_NUMBER - 1) []

/-- A ThoughtSpot software version as `awesomeversion` compares it against
the threshold string `10.3.0`: numeric components compared
lexicographically. -/
structure TSVersion where
  major : Nat
  minor : Nat
  patch : Nat
deriving DecidableEq, Repr

/-- `compat_ts_version < "10.3.0"`: lexicographic comparison on the numeric
components. -/
def TSVersion.lt (a b : TSVersion) : Bool :=
  Nat.blt a.major b.major ||
    (a.major == b.major &&
      (Nat.blt a.minor b.minor || (a.minor == b.minor && Nat.blt a.patch b.patch)))

/-- The version at which `permission_type={DEFINED|EFFECTIVE}` was released
for `security/metadata/fetch-permissions` (metadata.py line 119). -/
def PERMISSION_TYPE_THRESHOLD : TSVersion := ⟨10, 3, 0⟩

/-- `FIFTEEN_MINUTES = 60 * 15` (metadata.py line 104), the extended
per-call timeout used for the modern permissions request. -/
def FIFTEEN_MINUTES : Nat := 60 * 15

/-- The request one iteration of the `permissions` workflow submits for one
guid (metadata.py lines 110-143): either the legacy
`v1_security_metadata_permissions` shape, carrying a bare identifier list
and no explicit permission-type semantics (the remote default applies,
which per the DEV NOTE at metadata.py lines 112-117 is EFFECTIVE
permissions), or the modern `security_metadata_permissions` shape, carrying
explicit type/identifier metadata pairs (over which the caller's
`permission_type={DEFINED|EFFECTIVE}` option applies) and an overridden
per-call timeout. -/
inductive PermissionsCall where
  | v1Legacy (apiObjectType : String) (ids : List String) (timeoutOverride : Option Nat)
  | v2Explicit (metadata : List (String × String)) (recordSize : Int) (timeoutOverride : Option Nat)
deriving DecidableEq, Repr

/-- The per-guid branch of the `permissions` workflow (metadata.py lines
119-141), for a single-guid unit of work. -/
def permissionsCallFor (compatTsVersion : TSVersion) (metadataType : String)
    (guid : String) (recordSize : Int) : PermissionsCall :=
  if compatTsVersion.lt PERMISSION_TYPE_THRESHOLD then
    .v1Legacy metadataType [guid] none
  else
    .v2Explicit [(metadataType, guid)] recordSize (some FIFTEEN_MINUTES)

/-- The API endpoint methods defined on `RESTAPIClient` (client.py). -/
inductive Endpoint where
  | auth_session_login
  | auth_token_full
  | v1_trusted_authentication
  | auth_session_logout
  | session_info
  | system_info
  | logs_fetch
  | metadata_search
  | metadata_permissions
  | metadata_tml_export
  | metadata_tml_import
  | connection_search
  | users_search
  | users_create
  | users_update
  | groups_search
  | groups_create
  | groups_update
  | schedules_search
  | search_data
deriving DecidableEq, Repr

/-- Whether the endpoint's method in client.py carries the
`@_transport.CachePolicy.mark_cacheable` decorator (the explicit caching
allow-list tag). -/
def markedCacheable : Endpoint → Bool
  | .system_info => true
  | .metadata_search => true
  | .metadata_permissions => true
  | .metadata_tml_export => true
  | .metadata_tml_import => true
  | .connection_search => true
  | .users_search => true
  | .groups_search => true
  | .schedules_search => true
  | _ => false

/-- The HTTP method each endpoint's request uses (client.py): every endpoint
posts except the two session/system reads, which GET. -/
def httpMethod : Endpoint → String
  | .session_info => "GET"
  | .system_info => "GET"
  | _ => "POST"

/-- Modelled from the spec: `CachePolicy.is_cacheable`
(cs_tools/api/_transport.py, not under src/).  Per the spec, cache
eligibility of a request is determined by the explicit allow-list tag
attached to its endpoint, never inferred from the HTTP method alone. -/
def is_cacheable (e : Endpoint) : Bool := markedCacheable e

/-- Whether the endpoint is a bulk write/import operation: the TML import
pushes documents into ThoughtSpot (client.py lines 289-297, "Push the EDOC
of the object into ThoughtSpot"). -/
def isBulkImport : Endpoint → Bool
  | .metadata_tml_import => true
  | _ => false

/-! Concrete inputs used by the claim theorems below. -/

/-- A three-type drain where the second object type's paginated call fails
entirely with a transient connection error. -/
def failingSecondDrain : String → Except HTTPError (List Nat) := fun t =>
  if t == "LOGICAL_TABLE" then .error (.connectError "connection reset")
  else if t == "LIVEBOARD" then .ok [1, 2]
  else .ok [3]

/-- A two-unit group in which the first unit's coroutine raises and the
second completes with a success response. -/
def groupWithRaisingUnit : List (String × Except HTTPError (SearchResponse Nat)) :=
  [("a", .error (.connectError "boom")), ("b", .ok ⟨200, [7]⟩)]

/-- A concrete CONNECTION root object: the container itself exposes no
dependent buckets of its own (expansion does not work on it, which is why
the workflow fans out per contained table). -/
def connectionRoot : MetadataObject :=
  { metadata_id := "conn-1", metadata_name := "My Connection",
    metadata_type := "CONNECTION",
    metadata_header := { author := "u0", authorName := "User Zero", tags := [], modified := 1700000000000 },
    dependent_objects := [] }

/-- The per-child expansion results for the two tables contained in
`connectionRoot`: each child table's search returns the child's own record
carrying exactly one unique dependent. -/
def connectionChildSearch : String → List MetadataObject := fun g =>
  if g == "t1" then
    [{ metadata_id := "t1", metadata_name := "Table 1",
       metadata_type := "LOGICAL_TABLE",
       metadata_header := { author := "u1", authorName := "User One", tags := [], modified := 1700000001000 },
       dependent_objects :=
         [("t1", [("LIVEBOARD", [{ id := "dep-a", name := "A", author := "u2",
                                   authorName := some "User Two", tags := [],
                                   modified := 1700000002000 }])])] }]
  else if g == "t2" then
    [{ metadata_id := "t2", metadata_name := "Table 2",
       metadata_type := "LOGICAL_TABLE",
       metadata_header := { author := "u3", authorName := "User Three", tags := [], modified := 1700000003000 },
       dependent_objects :=
         [("t2", [("ANSWER", [{ id := "dep-b", name := "B", author := "u4",
                                authorName := some "User Four", tags := [],
                                modified := 1700000004000 }])])] }]
  else []

/-! Helper lemmas shared across the claim theorems. -/

/-- A task group over units that all complete normally finishes its
`async with` block without raising and exposes every unit's outcome. -/
theorem taskGroupRun_eq_ok {κ ε α : Type} (units : List (κ × Except ε α))
    (h : ∀ u ∈ units, ∃ a, u.2 = Except.ok a) : taskGroupRun units = .ok units := by
  have hnil : (units.filterMap fun u =>
      match u.2 with
      | .error e => some e
      | .ok _ => none) = [] := by
    rw [List.filterMap_eq_nil_iff]
    intro u hu
    obtain ⟨a, ha⟩ := h u hu
    rw [ha]
  simp [taskGroupRun, hnil]

/-- The classification loop's accumulator only prefixes its output. -/
theorem fetchClassify_acc {κ ρ : Type} (acc : List ρ)
    (us : List (κ × Except HTTPError (SearchResponse ρ))) :
    fetchClassify acc us = acc ++ fetchClassify [] us := by
  induction us generalizing acc with
  | nil => simp [fetchClassify]
  | cons u us ih =>
      obtain ⟨k, r⟩ := u
      cases r with
      | error e =>
          simp only [fetchClassify]
          exact ih acc
      | ok r =>
          by_cases h : 400 ≤ r.status
          · simp only [fetchClassify, if_pos h]
            exact ih acc
          · simp only [fetchClassify, if_neg h, List.nil_append]
            rw [ih (acc ++ r.records), ih r.records, List.append_assoc]

/-- The classification loop distributes over list append. -/
theorem fetchClassify_append {κ ρ : Type}
    (xs ys : List (κ × Except HTTPError (SearchResponse ρ))) :
    fetchClassify [] (xs ++ ys) = fetchClassify [] xs ++ fetchClassify [] ys := by
  induction xs with
  | nil => simp [fetchClassify]
  | cons u xs ih =>
      obtain ⟨k, r⟩ := u
      cases r with
      | error e =>
          simp only [List.cons_append, fetchClassify]
          exact ih
      | ok r =>
          by_cases h : 400 ≤ r.status
          · simp only [List.cons_append, fetchClassify, if_pos h]
            exact ih
          · simp only [List.cons_append, fetchClassify, if_neg h, List.nil_append,
              List.append_eq]
            rw [fetchClassify_acc r.records (xs ++ ys), fetchClassify_acc r.records xs, ih,
              List.append_assoc]

/-- Over units that all completed with a success-status response, the
classification loop keeps every unit's records, in submission order. -/
theorem fetchClassify_ok_units {κ ρ : Type} (us : List (κ × SearchResponse ρ))
    (h : ∀ u ∈ us, u.2.status < 400) :
    fetchClassify [] (us.map okUnit) = (us.map fun u => u.2.records).flatten := by
  induction us with
  | nil => simp [fetchClassify]
  | cons u us ih =>
      have hu : u.2.status < 400 := h u (List.mem_cons_self u us)
      have hrest : ∀ v ∈ us, v.2.status < 400 := fun v hv => h v (List.mem_cons_of_mem u hv)
      simp only [List.map_cons, fetchClassify, okUnit, if_neg (not_le.mpr hu)]
      rw [fetchClassify_acc, ih hrest]
      simp

/-! Claim C10. -/

/-- Claim C10: passing a one-shot iterator of object types to `fetch_all`
consumes it entirely while computing `max_concurrent=len(list(object_types))`,
so the submission loop creates zero units of work and the call returns the
empty result list without issuing any network call. -/
theorem fetchAll_oneShot_returns_empty {τ ρ : Type} (xs : List τ)
    (drain : τ → Except HTTPError (List ρ)) :
    fetchAll (PyIterable.oneShot xs) drain =
      { maxConcurrent := xs.length, unitsSubmitted := 0, result := Except.ok [] } := rfl

/-- Witness instantiating `fetchAll_oneShot_returns_empty` at a concrete
three-type iterator. -/
theorem fetchAll_oneShot_returns_empty_witness :
    fetchAll (PyIterable.oneShot ["LIVEBOARD", "ANSWER", "CONNECTION"])
        (fun _ => Except.ok ([] : List Nat)) =
      { maxConcurrent := 3, unitsSubmitted := 0, result := Except.ok [] } :=
  fetchAll_oneShot_returns_empty ["LIVEBOARD", "ANSWER", "CONNECTION"] (fun _ => Except.ok [])

/-! Claim C6. -/

/-- Claim C6 (divergence): for a `fetch_all` over 3 object types where one
type's paginated drain raises an `httpx.HTTPError` inside its task, the
task group cancels the siblings and the `async with` block raises the
exception out of `fetch_all` as an exception group — the other 2 types'
results are NOT returned and the batch DOES raise.  The `except
httpx.HTTPError` around `task.result()` (metadata.py lines 40-43), whose log
message documents the intended log-and-skip behavior, is unreachable for
in-task failures. -/
theorem fetchAll_drain_failure_aborts_batch :
    fetchAll (PyIterable.reiterable ["LIVEBOARD", "LOGICAL_TABLE", "ANSWER"])
        failingSecondDrain =
      { maxConcurrent := 3, unitsSubmitted := 3,
        result := Except.error [HTTPError.connectError "connection reset"] } := rfl

/-! Claim C2. -/

/-- Claim C2 (divergence): the bulk TML import endpoint IS on the caching
allow-list: `RESTAPIClient.metadata_tml_import` (client.py lines 289-297)
carries the `@_transport.CachePolicy.mark_cacheable` decorator, so
`is_cacheable` holds for the bulk write/import endpoint, contradicting both
the claim and the client's own docstring ("Endpoints which fetch/search
data will have successful responses cached"). -/
theorem tml_import_is_on_cache_allowlist :
    markedCacheable Endpoint.metadata_tml_import = true ∧
      isBulkImport Endpoint.metadata_tml_import = true ∧
      is_cacheable Endpoint.metadata_tml_import = true :=
  ⟨rfl, rfl, rfl⟩

/-! Claim C8. -/

/-- Claim C8: a `tml_export` call whose export payload carries an
application-level error status (`info.status.status_code == "ERROR"`)
returns the degraded result carrying the error info instead of raising, and
writes no file even when a destination directory was requested. -/
theorem tml_export_app_error_degraded_no_write (guid dir : String)
    (r : TMLExportResponse) (d : TMLEDoc) (rest : List TMLEDoc)
    (hstatus : r.status < 400) (hpayload : r.payload = d :: rest)
    (herr : d.info.status_code = "ERROR") :
    tml_export guid (some dir) r = (TMLExportResult.degradedApp d.info, []) := by
  simp [tml_export, not_le.mpr hstatus, hpayload, herr]

/-- Witness instantiating `tml_export_app_error_degraded_no_write` at a
concrete errored export payload with persistence requested. -/
theorem tml_export_app_error_degraded_no_write_witness :
    tml_export "guid-1" (some "/tmp/out")
        { status := 200,
          payload := [{ edoc := "", info := { id := "guid-1", type := "LIVEBOARD", status_code := "ERROR" } }],
          text := "raw" } =
      (TMLExportResult.degradedApp { id := "guid-1", type := "LIVEBOARD", status_code := "ERROR" }, []) :=
  tml_export_app_error_degraded_no_write "guid-1" "/tmp/out" _ _ []
    (by decide) rfl rfl

/-! Claim C9. -/

/-- Claim C9: the `permissions` workflow branches on the caller-supplied
compatibility version against the 10.3.0 threshold: below it, the request
uses the legacy shape (bare identifier list, no explicit permission-type
semantics so the remote default — effective permissions — applies, and no
timeout override); at or above it, the request uses the shape with explicit
type/identifier metadata (over which defined/effective semantics are
selected) and an extended per-call timeout, longer than the client
default. -/
theorem permissions_version_threshold_shapes (v : TSVersion) (t g : String)
    (rs : Int) :
    (v.lt PERMISSION_TYPE_THRESHOLD = true →
      permissionsCallFor v t g rs = PermissionsCall.v1Legacy t [g] none) ∧
    (v.lt PERMISSION_TYPE_THRESHOLD = false →
      permissionsCallFor v t g rs =
          PermissionsCall.v2Explicit [(t, g)] rs (some FIFTEEN_MINUTES) ∧
        CALLOSUM_DEFAULT_TIMEOUT_SECONDS < FIFTEEN_MINUTES) := by
  constructor
  · intro h
    simp [permissionsCallFor, h]
  · intro h
    refine ⟨by simp [permissionsCallFor, h], by decide⟩

/-- Witness instantiating `permissions_version_threshold_shapes` on both
sides of the threshold: version 10.2.9 (below) and 10.3.0 (at). -/
theorem permissions_version_threshold_shapes_witness :
    permissionsCallFor ⟨10, 2, 9⟩ "LIVEBOARD" "g-1" (-1) =
        PermissionsCall.v1Legacy "LIVEBOARD" ["g-1"] none ∧
      permissionsCallFor ⟨10, 3, 0⟩ "LIVEBOARD" "g-1" (-1) =
          PermissionsCall.v2Explicit [("LIVEBOARD", "g-1")] (-1) (some FIFTEEN_MINUTES) ∧
        CALLOSUM_DEFAULT_TIMEOUT_SECONDS < FIFTEEN_MINUTES :=
  ⟨(permissions_version_threshold_shapes ⟨10, 2, 9⟩ "LIVEBOARD" "g-1" (-1)).1 (by decide),
    (permissions_version_threshold_shapes ⟨10, 3, 0⟩ "LIVEBOARD" "g-1" (-1)).2 (by decide)⟩

/-! Retry-loop helper lemmas. -/

/-- An attempt whose outcome the retry condition rejects stops the loop at
once: the exception propagates, or the response is returned. -/
theorem retryStep_stop (req : HTTPRequest) (attempt : Nat → Attempt)
    (n retriesLeft : Nat) (delays : List Nat)
    (h : shouldRetry req (attempt n) = false) :
    retryStep req attempt n retriesLeft delays =
      { attemptsMade := n, delays := delays,
        outcome :=
          match attempt n with
          | .raised e => .raised e
          | .responded r => .value r } := by
  cases retriesLeft with
  | zero =>
      simp only [retryStep]
      cases ha : attempt n with
      | raised e => rfl
      | responded r =>
          rw [ha] at h
          simp only [shouldRetry] at h
          simp [h]
  | succ m =>
      simp only [retryStep, h]
      simp

/-- An attempt whose outcome is retryable, with retries left, sleeps the
exponential backoff for the completed attempt number and loops. -/
theorem retryStep_retry (req : HTTPRequest) (attempt : Nat → Attempt)
    (n k : Nat) (delays : List Nat)
    (h : shouldRetry req (attempt n) = true) :
    retryStep req attempt n (k + 1) delays =
      retryStep req attempt (n + 1) k (delays ++ [backoffAfterAttempt n]) := by
  simp only [retryStep, h]
  simp

/-- When `stop_after_attempt` allows no further attempt and the final
attempt raised, `reraise=True` re-raises that exception unchanged. -/
theorem retryStep_zero_raised (req : HTTPRequest) (attempt : Nat → Attempt)
    (n : Nat) (delays : List Nat) (e : HTTPError) (h : attempt n = .raised e) :
    retryStep req attempt n 0 delays =
      { attemptsMade := n, delays := delays, outcome := .raised e } := by
  simp only [retryStep, h]

/-- The loop completes at most `n + retriesLeft` attempts when entered at
attempt number `n`. -/
theorem retryStep_attempts_le (req : HTTPRequest) (attempt : Nat → Attempt) :
    ∀ (retriesLeft n : Nat) (delays : List Nat),
      (retryStep req attempt n retriesLeft delays).attemptsMade ≤ n + retriesLeft
  | 0, n, delays => by simp [retryStep]
  | k + 1, n, delays => by
      by_cases h : shouldRetry req (attempt n) = true
      · rw [retryStep_retry req attempt n k delays h]
        calc (retryStep req attempt (n + 1) k (delays ++ [backoffAfterAttempt n])).attemptsMade
            ≤ (n + 1) + k := retryStep_attempts_le req attempt k (n + 1) _
          _ = n + (k + 1) := by omega
      · rw [retryStep_stop req attempt n (k + 1) delays (by simpa using h)]
        exact Nat.le_add_right n (k + 1)

/-! Claim C4. -/

/-- Claim C4: when the in-flight request is the bulk TML import and an
attempt raises a transient network/connection error, the retry policy does
not retry: exactly one attempt is made, no backoff is slept, and the error
propagates to the caller unchanged. -/
theorem import_connection_error_single_attempt (req : HTTPRequest)
    (attempt : Nat → Attempt) (e : HTTPError)
    (himport : req.isTMLImport = true) (htransient : e.isTransient = true)
    (hattempt : attempt 1 = .raised e) :
    retryRun req attempt = { attemptsMade := 1, delays := [], outcome := .raised e } := by
  have hstop : shouldRetry req (attempt 1) = false := by
    rw [hattempt]
    simp [shouldRetry, request_errors_unless_importing_tml, himport]
  rw [retryRun, retryStep_stop req attempt 1 (MAX_ATTEMPT_NUMBER - 1) [] hstop, hattempt]

/-- Witness instantiating `import_connection_error_single_attempt` at the
TML import path with a concrete connection error. -/
theorem import_connection_error_single_attempt_witness :
    retryRun { method := "POST", urlPath := METADATA_TML_IMPORT_PATH }
        (fun _ => Attempt.raised (HTTPError.connectError "connection reset")) =
      { attemptsMade := 1, delays := [],
        outcome := .raised (HTTPError.connectError "connection reset") } :=
  import_connection_error_single_attempt
    { method := "POST", urlPath := METADATA_TML_IMPORT_PATH }
    (fun _ => Attempt.raised (HTTPError.connectError "connection reset"))
    (HTTPError.connectError "connection reset") (by decide) rfl rfl

/-! Claim C5. -/

/-- Claim C5: the transport makes at most 3 total attempts for every
request; and when all 3 attempts fail with a retryable condition (here:
each attempt raises an exception the retry condition accepts), the backoff
delays slept between attempts are the exponentially growing, non-decreasing
values `4^1` and `4^2`, and the final attempt's failure is re-raised to the
caller unchanged. -/
theorem retry_exhaustion_reraises_final_failure :
    (∀ (req : HTTPRequest) (attempt : Nat → Attempt),
      (retryRun req attempt).attemptsMade ≤ MAX_ATTEMPT_NUMBER) ∧
    (∀ (req : HTTPRequest) (attempt : Nat → Attempt) (e1 e2 e3 : HTTPError),
      attempt 1 = .raised e1 → attempt 2 = .raised e2 → attempt 3 = .raised e3 →
      shouldRetry req (.raised e1) = true → shouldRetry req (.raised e2) = true →
      shouldRetry req (.raised e3) = true →
      retryRun req attempt =
          { attemptsMade := 3,
            delays := [backoffAfterAttempt 1, backoffAfterAttempt 2],
            outcome := .raised e3 } ∧
        backoffAfterAttempt 1 ≤ backoffAfterAttempt 2) := by
  constructor
  · intro req attempt
    calc (retryRun req attempt).attemptsMade
        ≤ 1 + (MAX_ATTEMPT_NUMBER - 1) := retryStep_attempts_le req attempt _ 1 []
      _ = MAX_ATTEMPT_NUMBER := by decide
  · intro req attempt e1 e2 e3 h1 h2 h3 hr1 hr2 hr3
    refine ⟨?_, by decide⟩
    have s1 : shouldRetry req (attempt 1) = true := by rw [h1]; exact hr1
    have s2 : shouldRetry req (attempt 2) = true := by rw [h2]; exact hr2
    calc retryRun req attempt
        = retryStep req attempt 1 (1 + 1) [] := rfl
      _ = retryStep req attempt 2 (0 + 1) ([] ++ [backoffAfterAttempt 1]) :=
          retryStep_retry req attempt 1 1 [] s1
      _ = retryStep req attempt 3 0 (([] ++ [backoffAfterAttempt 1]) ++ [backoffAfterAttempt 2]) :=
          retryStep_retry req attempt 2 0 _ s2
      _ = { attemptsMade := 3,
            delays := [backoffAfterAttempt 1, backoffAfterAttempt 2],
            outcome := .raised e3 } := by
          rw [retryStep_zero_raised req attempt 3 _ e3 h3]
          simp

/-- Witness instantiating `retry_exhaustion_reraises_final_failure` with a
non-import request whose three attempts all raise the same transient
connection error. -/
theorem retry_exhaustion_reraises_final_failure_witness :
    retryRun { method := "POST", urlPath := "api/rest/2.0/metadata/search" }
        (fun _ => Attempt.raised (HTTPError.connectError "x")) =
      { attemptsMade := 3, delays := [4, 16],
        outcome := .raised (HTTPError.connectError "x") } := by
  have h := (retry_exhaustion_reraises_final_failure).2
    { method := "POST", urlPath := "api/rest/2.0/metadata/search" }
    (fun _ => Attempt.raised (HTTPError.connectError "x"))
    (HTTPError.connectError "x") (HTTPError.connectError "x") (HTTPError.connectError "x")
    rfl rfl rfl (by decide) (by decide) (by decide)
  exact h.1

/-! Claim C1. -/

/-- Claim C1 is false as stated: in a Bounded Task Group run where one unit
raises an exception inside its task, the group does not complete normally —
the `async with` block raises an exception group (cancelling siblings), so
the caller's post-group inspection loop never runs and the other unit's
outcome cannot be read.  Here `fetch` over such units raises instead of
returning unit b's records. -/
theorem taskGroup_unit_exception_aborts_group :
    taskGroupRun groupWithRaisingUnit = Except.error [HTTPError.connectError "boom"] ∧
      fetch groupWithRaisingUnit = Except.error [HTTPError.connectError "boom"] :=
  ⟨rfl, rfl⟩

/-- Claim C1 (amended): when every unit's coroutine completes and returns
its response — so the failing unit's error surfaces only at
result-classification time, when the caller's post-group loop calls
`raise_for_status()` on it — the group waits for every unit, completes
normally, and the caller reads the other N−1 units' outcomes untouched:
`fetch` returns exactly the concatenated records of the success-status
units, in submission order, unaffected by the error-status unit k. -/
theorem fetch_isolates_classification_failure {ρ : Type}
    (pre post : List (String × SearchResponse ρ)) (k : String) (rk : SearchResponse ρ)
    (hk : 400 ≤ rk.status)
    (hpre : ∀ u ∈ pre, u.2.status < 400) (hpost : ∀ u ∈ post, u.2.status < 400) :
    fetch (pre.map okUnit ++ (k, Except.ok rk) :: post.map okUnit) =
      Except.ok ((pre.map fun u => u.2.records).flatten ++
        (post.map fun u => u.2.records).flatten) := by
  have hall : ∀ u ∈ pre.map okUnit ++ (k, Except.ok rk) :: post.map okUnit,
      ∃ a, u.2 = Except.ok a := by
    intro u hu
    rcases List.mem_append.mp hu with h | h
    · obtain ⟨v, _, rfl⟩ := List.mem_map.mp h
      exact ⟨v.2, rfl⟩
    · rcases List.mem_cons.mp h with h | h
      · subst h
        exact ⟨rk, rfl⟩
      · obtain ⟨v, _, rfl⟩ := List.mem_map.mp h
        exact ⟨v.2, rfl⟩
  rw [fetch, taskGroupRun_eq_ok _ hall]
  have hmid : fetchClassify ([] : List ρ) ((k, Except.ok rk) :: post.map okUnit) =
      fetchClassify [] (post.map okUnit) := by
    simp only [fetchClassify, if_pos hk]
  show Except.ok (fetchClassify [] (pre.map okUnit ++ (k, Except.ok rk) :: post.map okUnit)) = _
  rw [fetchClassify_append, hmid, fetchClassify_ok_units pre hpre,
    fetchClassify_ok_units post hpost]

/-- Witness instantiating `fetch_isolates_classification_failure` on a
three-unit batch whose middle unit's response carries an error status. -/
theorem fetch_isolates_classification_failure_witness :
    400 ≤ (500 : Nat) ∧
      fetch ([("g1", (⟨200, [1, 2]⟩ : SearchResponse Nat))].map okUnit ++
          ("g2", Except.ok ⟨500, [9]⟩) :: [("g3", (⟨201, [3]⟩ : SearchResponse Nat))].map okUnit) =
        Except.ok [1, 2, 3] := by
  refine ⟨by decide, ?_⟩
  have h := fetch_isolates_classification_failure
    [("g1", (⟨200, [1, 2]⟩ : SearchResponse Nat))] [("g3", ⟨201, [3]⟩)] "g2" ⟨500, [9]⟩
    (by decide) (by decide) (by decide)
  simpa using h

/-! Claim C7. -/

/-- Claim C7: a `dependents` call on a non-container root whose nested
dependent buckets contain the occurrences A, B, A (A appearing twice across
type buckets) returns exactly 2 distinct dependent records — A once, from
its first occurrence in discovery order, then B once — the root's own
record is not emitted (the result consists solely of the two dependents'
records), and every record's `last_modified` is the epoch-millisecond
source timestamp converted to a UTC instant. -/
theorem dependents_noncontainer_dedup (lookup : String → String)
    (root : MetadataObject) (gs : List String)
    (childSearch : String → List MetadataObject)
    (key tyA tyB : String) (a b a2 : DependentEntry)
    (hroot : root.metadata_type ≠ "CONNECTION")
    (hdeps : root.dependent_objects = [(key, [(tyA, [a]), (tyB, [b, a2])])])
    (hdup : a2.id = a.id) (hab : a.id ≠ b.id) :
    dependents lookup root gs childSearch =
        [dependentRecord lookup tyA a, dependentRecord lookup tyB b] ∧
      (dependents lookup root gs childSearch).map (fun rec => rec.last_modified) =
        [utcFromMillis a.modified, utcFromMillis b.modified] := by
  have hmain : dependents lookup root gs childSearch =
      [dependentRecord lookup tyA a, dependentRecord lookup tyB b] := by
    simp only [dependents, beq_eq_false_iff_ne.mpr hroot, Bool.false_eq_true, if_false]
    simp [emitObjects, emitObject, emitTypeBuckets, emitBucket, hdeps, hdup,
      Ne.symm hab]
  refine ⟨hmain, ?_⟩
  rw [hmain]
  simp [dependentRecord]

/-- Witness instantiating `dependents_noncontainer_dedup` at a concrete
liveboard root whose buckets hold dependents a, b, a. -/
theorem dependents_noncontainer_dedup_witness :
    dependents (fun s => s)
        { metadata_id := "root-1", metadata_name := "My Answer",
          metadata_type := "ANSWER",
          metadata_header := { author := "u1", authorName := "User One", tags := [], modified := 1700000000000 },
          dependent_objects :=
            [("root-1",
              [("LIVEBOARD", [{ id := "dep-a", name := "A", author := "u2",
                                authorName := some "User Two", tags := [], modified := 1700000001000 }]),
               ("ANSWER", [{ id := "dep-b", name := "B", author := "u3",
                             authorName := none, tags := ["tag1"], modified := 1700000002000 },
                           { id := "dep-a", name := "A again", author := "u4",
                             authorName := some "User Four", tags := [], modified := 1700000003000 }])])] }
        [] (fun _ => []) =
      [{ guid := "dep-a", name := "A", type := "LIVEBOARD", author_guid := "u2",
         author_name := "User Two", tags := [], last_modified := utcFromMillis 1700000001000 },
       { guid := "dep-b", name := "B", type := "ANSWER", author_guid := "u3",
         author_name := "UNKNOWN", tags := ["tag1"], last_modified := utcFromMillis 1700000002000 }] :=
  (dependents_noncontainer_dedup (fun s => s) _ [] (fun _ => []) "root-1" "LIVEBOARD" "ANSWER"
    { id := "dep-a", name := "A", author := "u2", authorName := some "User Two",
      tags := [], modified := 1700000001000 }
    { id := "dep-b", name := "B", author := "u3", authorName := none,
      tags := ["tag1"], modified := 1700000002000 }
    { id := "dep-a", name := "A again", author := "u4", authorName := some "User Four",
      tags := [], modified := 1700000003000 }
    (by decide) rfl rfl (by decide)).1

/-! Claim C3. -/

/-- Claim C3 is false as stated: `dependents` on a container (CONNECTION)
root with 2 child tables, each exposing 1 unique dependent, returns FOUR
records, not 3 — the top-level rows emitted are the CHILD TABLES' own
records (the walk ranges over the children's expansion results), and the
container root's own record (guid `conn-1`) is not among them. -/
theorem dependents_container_emits_four_records :
    (dependents (fun s => s) connectionRoot ["t1", "t2"] connectionChildSearch).map
        (fun rec => rec.guid) = ["t1", "dep-a", "t2", "dep-b"] ∧
      (dependents (fun s => s) connectionRoot ["t1", "t2"] connectionChildSearch).length ≠ 3 := by
  constructor
  · rfl
  · intro h
    simp [dependents, connectionRoot, connectionChildSearch, emitObjects, emitObject,
      emitTypeBuckets, emitBucket] at h

/-- Claim C3 (amended): `dependents` on a container (CONNECTION) root with
2 child tables, each exposing 1 unique dependent, returns exactly 4
records: each child table's own record followed by that child's dependent,
in discovery order, with no duplicate guids; the container root's own
record is not emitted. -/
theorem dependents_container_children_and_deps (lookup : String → String)
    (root m1 m2 : MetadataObject) (d1 d2 : DependentEntry)
    (c1 c2 k1 k2 ty1 ty2 : String) (childSearch : String → List MetadataObject)
    (hroot : root.metadata_type = "CONNECTION")
    (h1 : childSearch c1 = [m1]) (h2 : childSearch c2 = [m2])
    (hm1 : m1.dependent_objects = [(k1, [(ty1, [d1])])])
    (hm2 : m2.dependent_objects = [(k2, [(ty2, [d2])])])
    (h12 : m1.metadata_id ≠ d1.id) (h13 : m1.metadata_id ≠ m2.metadata_id)
    (h14 : m1.metadata_id ≠ d2.id) (h23 : d1.id ≠ m2.metadata_id)
    (h24 : d1.id ≠ d2.id) (h34 : m2.metadata_id ≠ d2.id)
    (hr1 : root.metadata_id ≠ m1.metadata_id) (hr2 : root.metadata_id ≠ d1.id)
    (hr3 : root.metadata_id ≠ m2.metadata_id) (hr4 : root.metadata_id ≠ d2.id) :
    dependents lookup root [c1, c2] childSearch =
        [topLevelRecord lookup m1, dependentRecord lookup ty1 d1,
          topLevelRecord lookup m2, dependentRecord lookup ty2 d2] ∧
      ((dependents lookup root [c1, c2] childSearch).map (fun rec => rec.guid)).Nodup ∧
      root.metadata_id ∉ (dependents lookup root [c1, c2] childSearch).map (fun rec => rec.guid) ∧
      (dependents lookup root [c1, c2] childSearch).length = 4 := by
  have hmain : dependents lookup root [c1, c2] childSearch =
      [topLevelRecord lookup m1, dependentRecord lookup ty1 d1,
        topLevelRecord lookup m2, dependentRecord lookup ty2 d2] := by
    simp only [dependents, hroot, beq_self_eq_true, if_true]
    simp [h1, h2, emitObjects, emitObject, emitTypeBuckets, emitBucket, hm1, hm2,
      Ne.symm h12, Ne.symm h13, Ne.symm h23, Ne.symm h14, Ne.symm h24, Ne.symm h34]
  refine ⟨hmain, ?_, ?_, ?_⟩
  · rw [hmain]
    simp [topLevelRecord, dependentRecord, h12, h13, h14, h23, h24, h34]
  · rw [hmain]
    simp [topLevelRecord, dependentRecord, hr1, hr2, hr3, hr4]
  · rw [hmain]
    rfl

/-- Witness instantiating `dependents_container_children_and_deps` at the
concrete connection root with child tables t1 and t2. -/
theorem dependents_container_children_and_deps_witness :
    dependents (fun s => s) connectionRoot ["t1", "t2"] connectionChildSearch =
        [topLevelRecord (fun s => s)
            { metadata_id := "t1", metadata_name := "Table 1",
              metadata_type := "LOGICAL_TABLE",
              metadata_header := { author := "u1", authorName := "User One", tags := [], modified := 1700000001000 },
              dependent_objects :=
                [("t1", [("LIVEBOARD", [{ id := "dep-a", name := "A", author := "u2",
                                          authorName := some "User Two", tags := [],
                                          modified := 1700000002000 }])])] },
          dependentRecord (fun s => s) "LIVEBOARD"
            { id := "dep-a", name := "A", author := "u2", authorName := some "User Two",
              tags := [], modified := 1700000002000 },
          topLevelRecord (fun s => s)
            { metadata_id := "t2", metadata_name := "Table 2",
              metadata_type := "LOGICAL_TABLE",
              metadata_header := { author := "u3", authorName := "User Three", tags := [], modified := 1700000003000 },
              dependent_objects :=
                [("t2", [("ANSWER", [{ id := "dep-b", name := "B", author := "u4",
                                       authorName := some "User Four", tags := [],
                                       modified := 1700000004000 }])])] },
          dependentRecord (fun s => s) "ANSWER"
            { id := "dep-b", name := "B", author := "u4", authorName := some "User Four",
              tags := [], modified := 1700000004000 }] ∧
      ((dependents (fun s => s) connectionRoot ["t1", "t2"] connectionChildSearch).map
          (fun rec => rec.guid)).Nodup := by
  have h := dependents_container_children_and_deps (fun s => s) connectionRoot _ _ _ _
    "t1" "t2" "t1" "t2" "LIVEBOARD" "ANSWER" connectionChildSearch
    rfl rfl rfl rfl rfl
    (by decide) (by decide) (by decide) (by decide) (by decide) (by decide)
    (by decide) (by decide) (by decide) (by decide)
  exact ⟨h.1, h.2.1⟩

end CsTools
